import Mathlib

/-!
Verification of the zeno auto-rigger add-on (src/tools/operators/auto_rigger.py
and src/tools/operators/create_armature.py) against its specification.

The add-on is a thin client of the host 3D application's scene-graph API.  We
shallowly embed the scene state that the operators read and write: scene
objects with a name, a type, a location and a bounding box; guide objects
created by the create-guides operator; edit bones created by the rig
generators.  Coordinates are modelled as exact rationals (the source's float
literals 0.1, 0.2, ... are read as the exact decimals they denote).
Host-API calls (object creation, parent clearing) are modelled by their
documented scene effect; where a definition models a host operator rather
than code in this repository, its doc comment says so.
-/

/-- A 3D vector, standing in for mathutils.Vector. -/
structure Vec3 where
  x : ℚ
  y : ℚ
  z : ℚ
deriving DecidableEq, Repr

instance : Add Vec3 := ⟨fun a b => ⟨a.x + b.x, a.y + b.y, a.z + b.z⟩⟩

instance : Inhabited Vec3 := ⟨⟨0, 0, 0⟩⟩

/-- Scalar multiple of a vector (used only to state the linear-scaling claim). -/
def Vec3.smul (s : ℚ) (v : Vec3) : Vec3 := ⟨s * v.x, s * v.y, s * v.z⟩

/-- Blender object types relevant to the add-on (`obj.type`). -/
inductive ObjType where
  | MESH
  | ARMATURE
  | EMPTY
deriving DecidableEq, Repr

/-- Operator return status (`{'FINISHED'}` / `{'CANCELLED'}`). -/
inductive OpStatus where
  | FINISHED
  | CANCELLED
deriving DecidableEq, Repr

/-- A scene object as the operators see it: name, type, location, bounding-box
corners (`obj.bound_box`), parent (by name) and its world transform, the latter
abstracted to a vector.  Fields an operator does not touch are simply carried. -/
structure SceneObj where
  name : String
  type : ObjType
  location : Vec3
  bound_box : List Vec3
  parent : Option String
  matrix_world : Vec3
deriving DecidableEq, Repr

instance : Inhabited SceneObj := ⟨⟨"", ObjType.EMPTY, default, [], none, default⟩⟩

/-- A guide scene object at a location: a mesh-type object with the given name,
as `bpy.data.objects` stores it after `create_guide` ran. -/
def guideObjAt (name : String) (loc : Vec3) : SceneObj :=
  ⟨name, ObjType.MESH, loc, [], none, loc⟩

/-- Maximum of a list of rationals; the source only applies it to the eight
bounding-box corners, never to an empty list (Python's `max` would raise there,
we return 0). -/
def listMax : List ℚ → ℚ
  | [] => 0
  | x :: xs => xs.foldl max x

/-- Minimum of a list of rationals; same conventions as `listMax`. -/
def listMin : List ℚ → ℚ
  | [] => 0
  | x :: xs => xs.foldl min x

/-- `height = max(v[2] for v in bounds) - min(v[2] for v in bounds)`
(auto_rigger.py line 99). -/
def bboxHeight (bounds : List Vec3) : ℚ :=
  listMax (bounds.map Vec3.z) - listMin (bounds.map Vec3.z)

/-- `width = max(v[0] for v in bounds) - min(v[0] for v in bounds)`
(auto_rigger.py line 100). -/
def bboxWidth (bounds : List Vec3) : ℚ :=
  listMax (bounds.map Vec3.x) - listMin (bounds.map Vec3.x)

/-- The static guide table of AUTORIGGER_OT_create_guides.execute
(auto_rigger.py lines 103-133): each entry is a guide name and its position
`Vector(offset) + center`, offsets being hard-coded fractions of the mesh
bounding-box height and width. -/
def guides_data (height width : ℚ) (center : Vec3) : List (String × Vec3) :=
  [ ("C_Root_Guide", Vec3.mk 0 0 0 + center),
    ("C_Spine_01_Guide", Vec3.mk 0 0 (height * 0.2) + center),
    ("C_Spine_02_Guide", Vec3.mk 0 0 (height * 0.4) + center),
    ("C_Spine_03_Guide", Vec3.mk 0 0 (height * 0.6) + center),
    ("L_Shoulder_Guide", Vec3.mk (width * 0.2) 0 (height * 0.8) + center),
    ("L_Arm_Guide", Vec3.mk (width * 0.4) 0 (height * 0.75) + center),
    ("L_Forearm_Guide", Vec3.mk (width * 0.6) 0 (height * 0.65) + center),
    ("L_Hand_Guide", Vec3.mk (width * 0.8) 0 (height * 0.6) + center),
    ("R_Shoulder_Guide", Vec3.mk (-width * 0.2) 0 (height * 0.8) + center),
    ("R_Arm_Guide", Vec3.mk (-width * 0.4) 0 (height * 0.75) + center),
    ("R_Forearm_Guide", Vec3.mk (-width * 0.6) 0 (height * 0.65) + center),
    ("R_Hand_Guide", Vec3.mk (-width * 0.8) 0 (height * 0.6) + center),
    ("L_Hip_Guide", Vec3.mk (width * 0.1) 0 (height * 0.35) + center),
    ("L_Thigh_Guide", Vec3.mk (width * 0.15) 0 (height * 0.25) + center),
    ("L_Shin_Guide", Vec3.mk (width * 0.15) 0 (height * 0.1) + center),
    ("L_Foot_Guide", Vec3.mk (width * 0.15) 0.1 0 + center),
    ("R_Hip_Guide", Vec3.mk (-width * 0.1) 0 (height * 0.35) + center),
    ("R_Thigh_Guide", Vec3.mk (-width * 0.15) 0 (height * 0.25) + center),
    ("R_Shin_Guide", Vec3.mk (-width * 0.15) 0 (height * 0.1) + center),
    ("R_Foot_Guide", Vec3.mk (-width * 0.15) 0.1 0 + center) ]

/-- A guide object as AutoRiggerTool.create_guide leaves it: a cube of the
given size at the location, renamed, with the two custom properties, plus the
shrinkwrap constraint target that execute attaches right after creation. -/
structure GuideObj where
  name : String
  location : Vec3
  size : ℚ
  bendy_joints : Nat
  stretchable : Bool
  shrinkwrap_target : Option String
deriving DecidableEq, Repr

namespace AutoRiggerTool

/-- AutoRiggerTool.create_guide (auto_rigger.py lines 25-36): adds a cube of
the given size at the location, names it, and tags it with the two custom
properties.  The Python parameter `size` defaults to 0.1; callers that omit it
pass 0.1 here explicitly. -/
def create_guide (name : String) (location : Vec3) (size : ℚ) : GuideObj :=
  { name := name, location := location, size := size,
    bendy_joints := 2, stretchable := false, shrinkwrap_target := none }

end AutoRiggerTool

/-- The naming-convention enum of AutoRiggerProperties. -/
inductive NamingConvention where
  | DOTS
  | UNDERSCORE
  | CAMELCASE
deriving DecidableEq, Repr

/-- The per-scene property group AutoRiggerProperties (auto_rigger.py lines
38-82). -/
structure AutoRiggerProps where
  guide_size : ℚ
  bendy_joints : Nat
  stretch_controls : Bool
  naming_convention : NamingConvention
  show_spine : Bool
  show_arms : Bool
  show_legs : Bool
  show_fingers : Bool
  show_face : Bool
deriving DecidableEq, Repr

/-- Outcome of the create-guides operator: its return status, the messages it
reported (`self.report`), and the guide objects it created, in order. -/
structure CreateGuidesResult where
  status : OpStatus
  reports : List String
  created : List GuideObj
deriving DecidableEq, Repr

/-- AUTORIGGER_OT_create_guides.execute (auto_rigger.py lines 90-142): fails
with an error when the active object is missing or not a mesh; otherwise
computes height and width from the bounding box and creates one guide per
entry of the static table, each with a shrinkwrap constraint targeting the
mesh.  The call `AutoRiggerTool.create_guide(name, location)` leaves `size`
at its Python default 0.1; the property group `props` is never read. -/
def create_guides_execute (props : AutoRiggerProps) (active : Option SceneObj) :
    CreateGuidesResult :=
  match active with
  | none => ⟨OpStatus.CANCELLED, ["Please select a mesh object"], []⟩
  | some mesh_obj =>
    if mesh_obj.type ≠ ObjType.MESH then
      ⟨OpStatus.CANCELLED, ["Please select a mesh object"], []⟩
    else
      let center := mesh_obj.location
      let height := bboxHeight mesh_obj.bound_box
      let width := bboxWidth mesh_obj.bound_box
      let created := (guides_data height width center).map fun p =>
        { AutoRiggerTool.create_guide p.1 p.2 0.1 with
            shrinkwrap_target := some mesh_obj.name }
      ⟨OpStatus.FINISHED, [], created⟩

/-- An edit bone: name, head, tail, optional parent (by name). -/
structure EditBone where
  name : String
  head : Vec3
  tail : Vec3
  parent : Option String
deriving DecidableEq, Repr

instance : Inhabited EditBone := ⟨⟨"", default, default, none⟩⟩

namespace AutoRiggerTool

/-- AutoRiggerTool.create_bone (auto_rigger.py lines 15-23): appends a new
bone with the given head and tail to the armature's edit bones, then sets its
parent only when `parent_bone` is truthy AND a bone of that name is in the
collection (the freshly added bone included, as in the source, where the check
runs after `edit_bones.new`).  Returns the updated collection and the bone. -/
def create_bone (bones : List EditBone) (name : String) (head tail : Vec3)
    (parent_bone : Option String) : List EditBone × EditBone :=
  let withNew := bones ++ [⟨name, head, tail, none⟩]
  let parentOk : Bool := match parent_bone with
    | none => false
    | some p => withNew.any fun b => b.name == p
  let bone : EditBone := ⟨name, head, tail, if parentOk then parent_bone else none⟩
  (bones ++ [bone], bone)

end AutoRiggerTool

/-- AUTORIGGER_OT_generate_rig.get_guide_by_name (auto_rigger.py lines
150-152): `bpy.data.objects.get(name)`, a lookup of the scene object of that
name. -/
def get_guide_by_name (scene : List SceneObj) (name : String) : Option SceneObj :=
  scene.find? fun o => o.name = name

/-- Loop body of AUTORIGGER_OT_generate_rig.create_bone_chain (auto_rigger.py
lines 154-179), recursing over the zipped (guide name, bone name) pairs while
tracking the running index `i`, the armature's edit bones `arm`, and the
chain-local list `bones`.  A missing guide is skipped (`continue`).  The tail
is the next guide's location when index `i` has a successor in `guide_names`
and that guide exists, else `head + Vector((0, 0, 0.1))`.  The parent passed
to create_bone is the name of the last chain-local bone, if any. -/
def create_bone_chain_go (scene : List SceneObj) (guide_names : List String) :
    List (String × String) → Nat → List EditBone → List EditBone →
    List EditBone × List EditBone
  | [], _, arm, bones => (arm, bones)
  | (guide_name, bone_name) :: rest, i, arm, bones =>
    match get_guide_by_name scene guide_name with
    | none => create_bone_chain_go scene guide_names rest (i + 1) arm bones
    | some guide =>
      let head := guide.location
      let tail :=
        if i < guide_names.length - 1 then
          match get_guide_by_name scene (guide_names.getD (i + 1) "") with
          | some next_guide => next_guide.location
          | none => head + Vec3.mk 0 0 0.1
        else head + Vec3.mk 0 0 0.1
      let parent_bone := (bones.getLast?).map EditBone.name
      let step := AutoRiggerTool.create_bone arm bone_name head tail parent_bone
      create_bone_chain_go scene guide_names rest (i + 1) step.1 (bones ++ [step.2])

/-- AUTORIGGER_OT_generate_rig.create_bone_chain: runs the loop over
`zip(guide_names, bone_names)` starting from the armature's current edit
bones; returns the updated edit bones and the chain's own bone list (the
Python method returns the latter and mutates the former). -/
def create_bone_chain (scene : List SceneObj) (guide_names bone_names : List String)
    (arm : List EditBone) : List EditBone × List EditBone :=
  create_bone_chain_go scene guide_names (guide_names.zip bone_names) 0 arm []

/-- An armature object: its name and its edit bones. -/
structure Armature where
  name : String
  edit_bones : List EditBone
deriving DecidableEq, Repr

namespace AutoRiggerTool

/-- AutoRiggerTool.create_armature (auto_rigger.py lines 7-13): calls the
host's armature-add operator and renames the new object.  Modelled as a fresh
armature; the single default bone the host operator seeds (named "Bone") is
omitted from the model, since no chain logic ever reads or parents to it. -/
def create_armature (name : String) : Armature := ⟨name, []⟩

end AutoRiggerTool

/-- The static chain table of AUTORIGGER_OT_generate_rig.execute
(auto_rigger.py lines 186-207), in iteration order: spine, left_arm,
right_arm, left_leg, right_leg; each entry is (guides, bones). -/
def autorig_chains : List (List String × List String) :=
  [ (["C_Root_Guide", "C_Spine_01_Guide", "C_Spine_02_Guide", "C_Spine_03_Guide"],
     ["C_Root_Bone", "C_Spine_01_Bone", "C_Spine_02_Bone", "C_Spine_03_Bone"]),
    (["L_Shoulder_Guide", "L_Arm_Guide", "L_Forearm_Guide", "L_Hand_Guide"],
     ["L_Shoulder_Bone", "L_Arm_Bone", "L_Forearm_Bone", "L_Hand_Bone"]),
    (["R_Shoulder_Guide", "R_Arm_Guide", "R_Forearm_Guide", "R_Hand_Guide"],
     ["R_Shoulder_Bone", "R_Arm_Bone", "R_Forearm_Bone", "R_Hand_Bone"]),
    (["L_Hip_Guide", "L_Thigh_Guide", "L_Shin_Guide", "L_Foot_Guide"],
     ["L_Hip_Bone", "L_Thigh_Bone", "L_Shin_Bone", "L_Foot_Bone"]),
    (["R_Hip_Guide", "R_Thigh_Guide", "R_Shin_Guide", "R_Foot_Guide"],
     ["R_Hip_Bone", "R_Thigh_Bone", "R_Shin_Bone", "R_Foot_Bone"]) ]

/-- Outcome of the generate-rig operator: the armature it worked on, its
status, and the messages it reported (it reports none). -/
structure GenerateRigResult where
  armature : Armature
  status : OpStatus
  reports : List String
deriving DecidableEq, Repr

/-- AUTORIGGER_OT_generate_rig.execute (auto_rigger.py lines 181-215): creates
the main armature via `AutoRiggerTool.create_armature("AutoRig")` — it does not
look an armature up in the scene — then builds every chain of the static table
in order and returns `{'FINISHED'}` with no report. -/
def generate_rig_execute (scene : List SceneObj) : GenerateRigResult :=
  let armature := AutoRiggerTool.create_armature "AutoRig"
  let final := autorig_chains.foldl
    (fun bones chain => (create_bone_chain scene chain.1 chain.2 bones).1)
    armature.edit_bones
  ⟨⟨armature.name, final⟩, OpStatus.FINISHED, []⟩

namespace CreateArmature

/-- create_bone of create_armature.py (lines 15-23).  Unlike the auto_rigger
version there is no membership guard: `bone.parent = edit_bones[parent_bone]`
would raise on a missing name, and every call in the file passes the name of a
bone created just before, so the model sets the parent unconditionally. -/
def create_bone (bones : List EditBone) (name : String) (head tail : Vec3)
    (parent_bone : Option String) : List EditBone :=
  bones ++ [⟨name, head, tail, parent_bone⟩]

end CreateArmature

/-- The fifteen bones ZENO_OT_CreateHumanRig.execute creates (create_armature.py
lines 50-75), by the successive create_bone calls. -/
def human_rig_bones : List EditBone :=
  let b := CreateArmature.create_bone [] "spine_base" ⟨0, 0, 0⟩ ⟨0, 0, 1⟩ none
  let b := CreateArmature.create_bone b "spine_mid" ⟨0, 0, 1⟩ ⟨0, 0, 2⟩ (some "spine_base")
  let b := CreateArmature.create_bone b "spine_top" ⟨0, 0, 2⟩ ⟨0, 0, 3⟩ (some "spine_mid")
  let b := CreateArmature.create_bone b "shoulder.L" ⟨0, 0.2, 2.5⟩ ⟨0, 0.5, 2.5⟩ (some "spine_top")
  let b := CreateArmature.create_bone b "upper_arm.L" ⟨0, 0.5, 2.5⟩ ⟨0, 0.8, 2.5⟩ (some "shoulder.L")
  let b := CreateArmature.create_bone b "lower_arm.L" ⟨0, 0.8, 2.5⟩ ⟨0, 1.1, 2.5⟩ (some "upper_arm.L")
  let b := CreateArmature.create_bone b "shoulder.R" ⟨0, -0.2, 2.5⟩ ⟨0, -0.5, 2.5⟩ (some "spine_top")
  let b := CreateArmature.create_bone b "upper_arm.R" ⟨0, -0.5, 2.5⟩ ⟨0, -0.8, 2.5⟩ (some "shoulder.R")
  let b := CreateArmature.create_bone b "lower_arm.R" ⟨0, -0.8, 2.5⟩ ⟨0, -1.1, 2.5⟩ (some "upper_arm.R")
  let b := CreateArmature.create_bone b "hip.L" ⟨0, 0.2, 0⟩ ⟨0, 0.2, -1⟩ (some "spine_base")
  let b := CreateArmature.create_bone b "thigh.L" ⟨0, 0.2, -1⟩ ⟨0, 0.2, -2⟩ (some "hip.L")
  let b := CreateArmature.create_bone b "shin.L" ⟨0, 0.2, -2⟩ ⟨0, 0.2, -3⟩ (some "thigh.L")
  let b := CreateArmature.create_bone b "hip.R" ⟨0, -0.2, 0⟩ ⟨0, -0.2, -1⟩ (some "spine_base")
  let b := CreateArmature.create_bone b "thigh.R" ⟨0, -0.2, -1⟩ ⟨0, -0.2, -2⟩ (some "hip.R")
  CreateArmature.create_bone b "shin.R" ⟨0, -0.2, -2⟩ ⟨0, -0.2, -3⟩ (some "thigh.R")

/-- The "Human_Rig" armature object as a scene object. -/
def humanRigObj : SceneObj :=
  ⟨"Human_Rig", ObjType.ARMATURE, ⟨0, 0, 0⟩, [], none, ⟨0, 0, 0⟩⟩

/-- Outcome of the create-human-rig operator: the scene after it ran, the edit
bones of the new armature, and the status. -/
structure HumanRigResult where
  scene : List SceneObj
  rig_bones : List EditBone
  status : OpStatus
deriving DecidableEq, Repr

/-- ZENO_OT_CreateHumanRig.execute (create_armature.py lines 40-80): deselects
everything, selects every armature-type object (`select_by_type`), deletes the
selection, creates the "Human_Rig" armature at the origin, adds the fifteen
bones, and returns `{'FINISHED'}`.  Scene effect: exactly the armature-type
objects are removed and the one new armature object is appended. -/
def create_human_rig_execute (scene : List SceneObj) : HumanRigResult :=
  let afterDelete := scene.filter fun o => o.type ≠ ObjType.ARMATURE
  ⟨afterDelete ++ [humanRigObj], human_rig_bones, OpStatus.FINISHED⟩

/-- Outcome of the clear-binding operator: the scene after it ran, the status
and the reported messages. -/
structure ClearBindingResult where
  scene : List SceneObj
  status : OpStatus
  reports : List String
deriving DecidableEq, Repr

/-- Modelled host operator `bpy.ops.object.parent_clear(type='CLEAR_KEEP_TRANSFORM')`
(its documented semantics): the object loses its parent while its world
transform is kept (the host recomputes the local transform accordingly). -/
def parent_clear_keep_transform (o : SceneObj) : SceneObj :=
  { o with parent := none }

/-- AUTORIGGER_OT_clear_binding.execute (auto_rigger.py lines 324-330): if the
active object exists and is a mesh, clears its parent with
CLEAR_KEEP_TRANSFORM and returns `{'FINISHED'}`; otherwise reports
"Please select the mesh object" and returns `{'CANCELLED'}`, touching nothing. -/
def clear_binding_execute (scene : List SceneObj) (active : Option SceneObj) :
    ClearBindingResult :=
  match active with
  | some o =>
    if o.type = ObjType.MESH then
      ⟨scene.map fun x => if x.name = o.name then parent_clear_keep_transform x else x,
       OpStatus.FINISHED, []⟩
    else ⟨scene, OpStatus.CANCELLED, ["Please select the mesh object"]⟩
  | none => ⟨scene, OpStatus.CANCELLED, ["Please select the mesh object"]⟩

/-- The offset part of each guides_data entry: the guide's position relative
to the mesh center.  `guides_data height width center` is exactly this list
with `center` added to every offset (`guides_data_eq_offsets`). -/
def guide_offsets (height width : ℚ) : List (String × Vec3) :=
  [ ("C_Root_Guide", Vec3.mk 0 0 0),
    ("C_Spine_01_Guide", Vec3.mk 0 0 (height * 0.2)),
    ("C_Spine_02_Guide", Vec3.mk 0 0 (height * 0.4)),
    ("C_Spine_03_Guide", Vec3.mk 0 0 (height * 0.6)),
    ("L_Shoulder_Guide", Vec3.mk (width * 0.2) 0 (height * 0.8)),
    ("L_Arm_Guide", Vec3.mk (width * 0.4) 0 (height * 0.75)),
    ("L_Forearm_Guide", Vec3.mk (width * 0.6) 0 (height * 0.65)),
    ("L_Hand_Guide", Vec3.mk (width * 0.8) 0 (height * 0.6)),
    ("R_Shoulder_Guide", Vec3.mk (-width * 0.2) 0 (height * 0.8)),
    ("R_Arm_Guide", Vec3.mk (-width * 0.4) 0 (height * 0.75)),
    ("R_Forearm_Guide", Vec3.mk (-width * 0.6) 0 (height * 0.65)),
    ("R_Hand_Guide", Vec3.mk (-width * 0.8) 0 (height * 0.6)),
    ("L_Hip_Guide", Vec3.mk (width * 0.1) 0 (height * 0.35)),
    ("L_Thigh_Guide", Vec3.mk (width * 0.15) 0 (height * 0.25)),
    ("L_Shin_Guide", Vec3.mk (width * 0.15) 0 (height * 0.1)),
    ("L_Foot_Guide", Vec3.mk (width * 0.15) 0.1 0),
    ("R_Hip_Guide", Vec3.mk (-width * 0.1) 0 (height * 0.35)),
    ("R_Thigh_Guide", Vec3.mk (-width * 0.15) 0 (height * 0.25)),
    ("R_Shin_Guide", Vec3.mk (-width * 0.15) 0 (height * 0.1)),
    ("R_Foot_Guide", Vec3.mk (-width * 0.15) 0.1 0) ]

/-- Mirroring across the YZ plane: the x component changes sign. -/
def mirrorX (v : Vec3) : Vec3 := ⟨-v.x, v.y, v.z⟩

/-- The left/right guide pairs of the table (left name, right name). -/
def lrPairs : List (String × String) :=
  [ ("L_Shoulder_Guide", "R_Shoulder_Guide"),
    ("L_Arm_Guide", "R_Arm_Guide"),
    ("L_Forearm_Guide", "R_Forearm_Guide"),
    ("L_Hand_Guide", "R_Hand_Guide"),
    ("L_Hip_Guide", "R_Hip_Guide"),
    ("L_Thigh_Guide", "R_Thigh_Guide"),
    ("L_Shin_Guide", "R_Shin_Guide"),
    ("L_Foot_Guide", "R_Foot_Guide") ]

instance : Inhabited GuideObj := ⟨⟨"", default, 0, 0, false, none⟩⟩

/-- The twenty guide names, in the order the chain table consumes them. -/
def allGuideNames : List String := (autorig_chains.map Prod.fst).flatten

/-- A scene holding exactly the twenty guide objects, the guide of name `n`
located at `loc n`: the situation "all guides of every chain are present". -/
def fullGuideScene (loc : String → Vec3) : List SceneObj :=
  allGuideNames.map fun n => guideObjAt n (loc n)

/-- What the spec asserts of one chain built from fully present guides whose
locations are `loc`: with `N = gs.length` guides, exactly `N` bones; bone `i`
named `bs[i]` with head `loc gs[i]`; tail of bone `i` is `loc gs[i+1]` for
`i < N-1` and head plus the fixed offset for the last; the first bone has no
parent and bone `i > 0` has parent `bs[i-1]`; hence each bone's head equals
its predecessor's tail. -/
def chainSpec (loc : String → Vec3) (gs bs : List String) (bones : List EditBone) : Prop :=
  bones.length = gs.length ∧
  (∀ i < bones.length, (bones.getD i default).name = bs.getD i "" ∧
      (bones.getD i default).head = loc (gs.getD i "")) ∧
  (∀ i < bones.length, i + 1 < bones.length →
      (bones.getD i default).tail = loc (gs.getD (i + 1) "")) ∧
  (∀ i < bones.length, i + 1 = bones.length →
      (bones.getD i default).tail = loc (gs.getD i "") + Vec3.mk 0 0 0.1) ∧
  (∀ i < bones.length, (bones.getD i default).parent =
      if i = 0 then none else some (bs.getD (i - 1) "")) ∧
  (∀ i < bones.length, 0 < i →
      (bones.getD i default).head = (bones.getD (i - 1) default).tail)

/-- One step of the generate-rig chain loop, instrumented to also record the
bone list `create_bone_chain` returns (which Python's execute discards):
the armature state advances exactly as in execute. -/
def rigFoldStep (scene : List SceneObj)
    (a : List EditBone × List (List EditBone)) (chain : List String × List String) :
    List EditBone × List (List EditBone) :=
  let step := create_bone_chain scene chain.1 chain.2 a.1
  (step.1, a.2 ++ [step.2])

/-- Replay of the generate-rig fold that also records each chain's return
value: entry `k` is what `create_bone_chain` returned for chain `k`, run in
execute's order with execute's armature state.
`generate_rig_chain_bones_flatten` ties it back to `generate_rig_execute`. -/
def generate_rig_chain_bones (scene : List SceneObj) : List (List EditBone) :=
  (autorig_chains.foldl (rigFoldStep scene)
    ((AutoRiggerTool.create_armature "AutoRig").edit_bones, [])).2

/-- The scene holding every guide of the table except `missing`, the guide of
name `n` located at `loc n`: the situation "one guide is missing from an
otherwise fully guided scene". -/
def sceneWithout (loc : String → Vec3) (missing : String) : List SceneObj :=
  (allGuideNames.filter fun n => n ≠ missing).map fun n => guideObjAt n (loc n)

/-- The bone chain produced from a four-guide chain whose SECOND guide (index
1) is missing: the first bone ends at its default offset, the bone built from
guide 2 is parented to the first bone. -/
def gapChain1 (l0 l2 l3 : Vec3) (b0 b2 b3 : String) : List EditBone :=
  [⟨b0, l0, l0 + Vec3.mk 0 0 0.1, none⟩,
   ⟨b2, l2, l3, some b0⟩,
   ⟨b3, l3, l3 + Vec3.mk 0 0 0.1, some b2⟩]

/-- The bone chain produced from a four-guide chain whose THIRD guide (index
2) is missing: the second bone ends at its default offset, the bone built
from guide 3 is parented to the second bone. -/
def gapChain2 (l0 l1 l3 : Vec3) (b0 b1 b3 : String) : List EditBone :=
  [⟨b0, l0, l1, none⟩,
   ⟨b1, l1, l1 + Vec3.mk 0 0 0.1, some b0⟩,
   ⟨b3, l3, l3 + Vec3.mk 0 0 0.1, some b1⟩]

/-- What the amended C1 asserts of a chain built while its middle guide of
index `j` is missing and every other guide sits at `loc`: one bone fewer than
guides; no bone for the missing guide and no error is possible since the spec
is about the silent result; the bone built from guide `j+1` (at list index
`j`, as the indices after the gap shift down by one) is parented to the LAST
bone created before the gap, `bs[j-1]` — the parent linkage skips across the
gap; and the geometric gap: the bone before the gap ends at its own head plus
the fixed default offset instead of at the next bone's head. -/
def gapChainSpec (loc : String → Vec3) (gs bs : List String) (j : Nat)
    (bones : List EditBone) : Prop :=
  bones.length = gs.length - 1 ∧
  (∀ b ∈ bones, b.name ≠ bs.getD j "") ∧
  (bones.getD j default).name = bs.getD (j + 1) "" ∧
  (bones.getD j default).parent = some (bs.getD (j - 1) "") ∧
  (bones.getD (j - 1) default).tail =
    loc (gs.getD (j - 1) "") + Vec3.mk 0 0 0.1

/-- The offset table without the two foot guides (the guides whose offset has
the constant y component 0.1). -/
def nonFootOffsets (height width : ℚ) : List (String × Vec3) :=
  (guide_offsets height width).filter fun p =>
    p.1 ≠ "L_Foot_Guide" ∧ p.1 ≠ "R_Foot_Guide"

/-- The default property-group values (auto_rigger.py lines 38-82). -/
def defaultProps : AutoRiggerProps :=
  ⟨0.1, 0, true, NamingConvention.DOTS, true, true, true, false, false⟩

/-- A scene whose spine chain lacks its second guide, C_Spine_01_Guide: the
"missing middle guide" scenario. -/
def gapScene : List SceneObj :=
  [guideObjAt "C_Root_Guide" ⟨0, 0, 0⟩,
   guideObjAt "C_Spine_02_Guide" ⟨0, 0, 2⟩,
   guideObjAt "C_Spine_03_Guide" ⟨0, 0, 3⟩]

/-- A mesh whose bounding box has height 3 (z from -1.5 to 1.5) and width 2
(x from -1 to 1), centered at the origin: the spec's concrete scenario. -/
def mesh3x2 : SceneObj :=
  ⟨"Body", ObjType.MESH, ⟨0, 0, 0⟩,
   [⟨-1, -1, -1.5⟩, ⟨-1, -1, 1.5⟩, ⟨-1, 1, -1.5⟩, ⟨-1, 1, 1.5⟩,
    ⟨1, -1, -1.5⟩, ⟨1, -1, 1.5⟩, ⟨1, 1, -1.5⟩, ⟨1, 1, 1.5⟩],
   none, ⟨0, 0, 0⟩⟩

/-- A degenerate (zero-volume) mesh: all bounding-box corners coincide, so
height and width are both 0. -/
def degenerateMesh : SceneObj :=
  ⟨"Point", ObjType.MESH, ⟨0, 0, 0⟩,
   [⟨0, 0, 0⟩, ⟨0, 0, 0⟩, ⟨0, 0, 0⟩, ⟨0, 0, 0⟩,
    ⟨0, 0, 0⟩, ⟨0, 0, 0⟩, ⟨0, 0, 0⟩, ⟨0, 0, 0⟩], none, ⟨0, 0, 0⟩⟩

/-! ## General lemmas about the model -/

theorem Vec3.add_def (a b : Vec3) : a + b = ⟨a.x + b.x, a.y + b.y, a.z + b.z⟩ := rfl

theorem guides_data_eq_offsets (h w : ℚ) (c : Vec3) :
    guides_data h w c = (guide_offsets h w).map fun p => (p.1, p.2 + c) := rfl

/-- create_bone appends exactly the bone it returns. -/
theorem create_bone_fst (arm : List EditBone) (n : String) (h t : Vec3)
    (p : Option String) :
    (AutoRiggerTool.create_bone arm n h t p).1 =
      arm ++ [(AutoRiggerTool.create_bone arm n h t p).2] := rfl

/-- The chain loop appends the very bones it returns, both to the armature
and to its chain-local list. -/
theorem create_bone_chain_go_append (scene : List SceneObj) (gn : List String) :
    ∀ (pairs : List (String × String)) (i : Nat) (arm bones : List EditBone),
      ∃ new, create_bone_chain_go scene gn pairs i arm bones =
        (arm ++ new, bones ++ new) := by
  intro pairs
  induction pairs with
  | nil => intro i arm bones; exact ⟨[], by simp [create_bone_chain_go]⟩
  | cons hd tl ih =>
    intro i arm bones
    obtain ⟨g, b⟩ := hd
    cases hg : get_guide_by_name scene g with
    | none =>
      obtain ⟨new, hnew⟩ := ih (i + 1) arm bones
      exact ⟨new, by simp [create_bone_chain_go, hg, hnew]⟩
    | some guide =>
      simp only [create_bone_chain_go, hg]
      set tail := if i < gn.length - 1 then
          match get_guide_by_name scene (gn.getD (i + 1) "") with
          | some next_guide => next_guide.location
          | none => guide.location + Vec3.mk 0 0 0.1
        else guide.location + Vec3.mk 0 0 0.1 with htail
      set step := AutoRiggerTool.create_bone arm b guide.location tail
        ((bones.getLast?).map EditBone.name) with hstep
      obtain ⟨new, hnew⟩ := ih (i + 1) step.1 (bones ++ [step.2])
      refine ⟨step.2 :: new, ?_⟩
      rw [hnew, create_bone_fst]
      simp

/-- One instrumented step at a state whose chain returned `new` bones. -/
theorem rigFoldStep_eq (scene : List SceneObj) (arm : List EditBone)
    (acc : List (List EditBone)) (chain : List String × List String)
    (new : List EditBone)
    (h : create_bone_chain scene chain.1 chain.2 arm = (arm ++ new, new)) :
    rigFoldStep scene (arm, acc) chain = (arm ++ new, acc ++ [new]) := by
  simp [rigFoldStep, h]

/-- Every chain appends exactly the bones it returns to the armature. -/
theorem create_bone_chain_append (scene : List SceneObj)
    (gs bs : List String) (arm : List EditBone) :
    ∃ new, create_bone_chain scene gs bs arm = (arm ++ new, new) := by
  obtain ⟨new, hnew⟩ := create_bone_chain_go_append scene gs (gs.zip bs) 0 arm []
  exact ⟨new, by simpa [create_bone_chain] using hnew⟩

/-- The instrumented fold only ever appends to the record of chains. -/
theorem rigFold_snd_prefix (scene : List SceneObj) :
    ∀ (chains : List (List String × List String)) (arm : List EditBone)
      (acc : List (List EditBone)),
      ∃ rest, (chains.foldl (rigFoldStep scene) (arm, acc)).2 = acc ++ rest := by
  intro chains
  induction chains with
  | nil => intro arm acc; exact ⟨[], by simp⟩
  | cons hd tl ih =>
    intro arm acc
    obtain ⟨new, hnew⟩ := create_bone_chain_append scene hd.1 hd.2 arm
    rw [List.foldl_cons, rigFoldStep_eq scene arm acc hd new hnew]
    obtain ⟨rest, hrest⟩ := ih (arm ++ new) (acc ++ [new])
    exact ⟨new :: rest, by simp [hrest]⟩

/-- The armature after the instrumented generate-rig fold is the initial
armature followed by the recorded chains' bones, flattened in order. -/
theorem generate_rig_fold_flatten (scene : List SceneObj) :
    ∀ (chains : List (List String × List String)) (arm : List EditBone)
      (acc : List (List EditBone)),
      (chains.foldl (rigFoldStep scene) (arm, acc)).1 =
      arm ++ ((chains.foldl (rigFoldStep scene) (arm, acc)).2.drop acc.length).flatten := by
  intro chains
  induction chains with
  | nil => intro arm acc; simp
  | cons hd tl ih =>
    intro arm acc
    obtain ⟨new, hnew⟩ := create_bone_chain_append scene hd.1 hd.2 arm
    rw [List.foldl_cons, rigFoldStep_eq scene arm acc hd new hnew,
      ih (arm ++ new) (acc ++ [new])]
    obtain ⟨rest, hrest⟩ := rigFold_snd_prefix scene tl (arm ++ new) (acc ++ [new])
    rw [hrest]
    simp [List.drop_append_eq_append_drop, List.drop_eq_nil_of_le (Nat.le_succ _)]

/-- The instrumented fold advances the armature exactly as execute's fold. -/
theorem rigFold_fst (scene : List SceneObj) :
    ∀ (chains : List (List String × List String)) (arm : List EditBone)
      (acc : List (List EditBone)),
      (chains.foldl (rigFoldStep scene) (arm, acc)).1 =
      chains.foldl (fun bones chain => (create_bone_chain scene chain.1 chain.2 bones).1) arm := by
  intro chains
  induction chains with
  | nil => intro arm acc; rfl
  | cons hd tl ih =>
    intro arm acc
    rw [List.foldl_cons, List.foldl_cons]
    exact ih _ _

/-- The bones of the generated armature are the chains' bone lists, flattened
in chain order. -/
theorem generate_rig_chain_bones_flatten (scene : List SceneObj) :
    (generate_rig_execute scene).armature.edit_bones =
      (generate_rig_chain_bones scene).flatten := by
  simp only [generate_rig_execute, generate_rig_chain_bones,
    AutoRiggerTool.create_armature]
  rw [← rigFold_fst scene autorig_chains [] []]
  simpa using generate_rig_fold_flatten scene autorig_chains [] []


/-! ## C1: missing middle guide -/

/-- C1, as stated, is false at a concrete input: in a scene holding the spine
guides C_Root_Guide, C_Spine_02_Guide and C_Spine_03_Guide but missing the
middle guide C_Spine_01_Guide, generate-rig does skip the missing guide
silently (three bones, no report), but the bone created after the gap,
C_Spine_02_Bone, is NOT created without a parent: its parent is C_Root_Bone,
the last bone created before the gap. -/
theorem generate_rig_missing_middle_guide_counterexample :
    generate_rig_execute gapScene =
      ⟨⟨"AutoRig",
        [⟨"C_Root_Bone", ⟨0, 0, 0⟩, Vec3.mk 0 0 0 + Vec3.mk 0 0 0.1, none⟩,
         ⟨"C_Spine_02_Bone", ⟨0, 0, 2⟩, ⟨0, 0, 3⟩, some "C_Root_Bone"⟩,
         ⟨"C_Spine_03_Bone", ⟨0, 0, 3⟩, Vec3.mk 0 0 3 + Vec3.mk 0 0 0.1,
          some "C_Spine_02_Bone"⟩]⟩,
       OpStatus.FINISHED, []⟩ := rfl

/-! ## C3: chains with all guides present -/

/-- The bone chain the spec predicts for a four-guide chain whose guides are
all present at locations `l0..l3`: heads at the guides, tails at the next
guide (default offset for the last), parents chained. -/
def expectedChain4 (l0 l1 l2 l3 : Vec3) (b0 b1 b2 b3 : String) : List EditBone :=
  [⟨b0, l0, l1, none⟩,
   ⟨b1, l1, l2, some b0⟩,
   ⟨b2, l2, l3, some b1⟩,
   ⟨b3, l3, l3 + Vec3.mk 0 0 0.1, some b2⟩]

/-- Looking a name up in a scene of guide objects finds its guide. -/
theorem find_guide_map (loc : String → Vec3) :
    ∀ (names : List String) (n : String), n ∈ names →
      get_guide_by_name (names.map fun m => guideObjAt m (loc m)) n =
        some (guideObjAt n (loc n)) := by
  intro names
  induction names with
  | nil => intro n h; cases h
  | cons m rest ih =>
    intro n h
    by_cases hmn : m = n
    · subst hmn
      simp [get_guide_by_name, guideObjAt]
    · rcases List.mem_cons.mp h with rfl | h2
      · exact absurd rfl hmn
      · simp only [List.map_cons, get_guide_by_name, List.find?_cons]
        rw [show decide ((guideObjAt m (loc m)).name = n) = false from by
          simp [guideObjAt, hmn]]
        exact ih n h2

/-- Every guide of the full guide scene is found at its location. -/
theorem get_guide_fullScene (loc : String → Vec3) (n : String)
    (h : n ∈ allGuideNames) :
    get_guide_by_name (fullGuideScene loc) n = some (guideObjAt n (loc n)) :=
  find_guide_map loc allGuideNames n h

/-- Evaluation of the chain loop on a four-guide chain whose guides all
resolve: the chain appends exactly the predicted bones. -/
theorem create_bone_chain4_eval (s : List SceneObj) (arm : List EditBone)
    (g0 g1 g2 g3 b0 b1 b2 b3 : String) (l0 l1 l2 l3 : Vec3)
    (h0 : get_guide_by_name s g0 = some (guideObjAt g0 l0))
    (h1 : get_guide_by_name s g1 = some (guideObjAt g1 l1))
    (h2 : get_guide_by_name s g2 = some (guideObjAt g2 l2))
    (h3 : get_guide_by_name s g3 = some (guideObjAt g3 l3)) :
    create_bone_chain s [g0, g1, g2, g3] [b0, b1, b2, b3] arm =
      (arm ++ expectedChain4 l0 l1 l2 l3 b0 b1 b2 b3,
       expectedChain4 l0 l1 l2 l3 b0 b1 b2 b3) := by
  simp [create_bone_chain, create_bone_chain_go, h0, h1, h2, h3,
    AutoRiggerTool.create_bone, guideObjAt, expectedChain4,
    List.getLast?_concat]

/-- One generate-rig fold step on a fully present four-guide chain. -/
theorem rig_step (s : List SceneObj) (arm : List EditBone)
    (acc : List (List EditBone))
    (g0 g1 g2 g3 b0 b1 b2 b3 : String) (l0 l1 l2 l3 : Vec3)
    (h0 : get_guide_by_name s g0 = some (guideObjAt g0 l0))
    (h1 : get_guide_by_name s g1 = some (guideObjAt g1 l1))
    (h2 : get_guide_by_name s g2 = some (guideObjAt g2 l2))
    (h3 : get_guide_by_name s g3 = some (guideObjAt g3 l3)) :
    rigFoldStep s (arm, acc) ([g0, g1, g2, g3], [b0, b1, b2, b3]) =
      (arm ++ expectedChain4 l0 l1 l2 l3 b0 b1 b2 b3,
       acc ++ [expectedChain4 l0 l1 l2 l3 b0 b1 b2 b3]) :=
  rigFoldStep_eq s arm acc _ _
    (create_bone_chain4_eval s arm g0 g1 g2 g3 b0 b1 b2 b3 l0 l1 l2 l3 h0 h1 h2 h3)

/-- On the full guide scene, each of the five chains returns exactly the
predicted bones. -/
theorem generate_rig_chain_bones_full (loc : String → Vec3) :
    generate_rig_chain_bones (fullGuideScene loc) =
      [expectedChain4 (loc "C_Root_Guide") (loc "C_Spine_01_Guide")
         (loc "C_Spine_02_Guide") (loc "C_Spine_03_Guide")
         "C_Root_Bone" "C_Spine_01_Bone" "C_Spine_02_Bone" "C_Spine_03_Bone",
       expectedChain4 (loc "L_Shoulder_Guide") (loc "L_Arm_Guide")
         (loc "L_Forearm_Guide") (loc "L_Hand_Guide")
         "L_Shoulder_Bone" "L_Arm_Bone" "L_Forearm_Bone" "L_Hand_Bone",
       expectedChain4 (loc "R_Shoulder_Guide") (loc "R_Arm_Guide")
         (loc "R_Forearm_Guide") (loc "R_Hand_Guide")
         "R_Shoulder_Bone" "R_Arm_Bone" "R_Forearm_Bone" "R_Hand_Bone",
       expectedChain4 (loc "L_Hip_Guide") (loc "L_Thigh_Guide")
         (loc "L_Shin_Guide") (loc "L_Foot_Guide")
         "L_Hip_Bone" "L_Thigh_Bone" "L_Shin_Bone" "L_Foot_Bone",
       expectedChain4 (loc "R_Hip_Guide") (loc "R_Thigh_Guide")
         (loc "R_Shin_Guide") (loc "R_Foot_Guide")
         "R_Hip_Bone" "R_Thigh_Bone" "R_Shin_Bone" "R_Foot_Bone"] := by
  have gg : ∀ n ∈ allGuideNames,
      get_guide_by_name (fullGuideScene loc) n = some (guideObjAt n (loc n)) :=
    fun n h => get_guide_fullScene loc n h
  simp only [generate_rig_chain_bones, autorig_chains,
    AutoRiggerTool.create_armature, List.foldl_cons, List.foldl_nil]
  rw [rig_step _ _ _ _ _ _ _ _ _ _ _ _ _ _ _
        (gg _ (by decide)) (gg _ (by decide)) (gg _ (by decide)) (gg _ (by decide)),
      rig_step _ _ _ _ _ _ _ _ _ _ _ _ _ _ _
        (gg _ (by decide)) (gg _ (by decide)) (gg _ (by decide)) (gg _ (by decide)),
      rig_step _ _ _ _ _ _ _ _ _ _ _ _ _ _ _
        (gg _ (by decide)) (gg _ (by decide)) (gg _ (by decide)) (gg _ (by decide)),
      rig_step _ _ _ _ _ _ _ _ _ _ _ _ _ _ _
        (gg _ (by decide)) (gg _ (by decide)) (gg _ (by decide)) (gg _ (by decide)),
      rig_step _ _ _ _ _ _ _ _ _ _ _ _ _ _ _
        (gg _ (by decide)) (gg _ (by decide)) (gg _ (by decide)) (gg _ (by decide))]
  simp

/-- The predicted four-bone chain satisfies every clause of chainSpec. -/
theorem chainSpec_expected4 (loc : String → Vec3)
    (g0 g1 g2 g3 b0 b1 b2 b3 : String) :
    chainSpec loc [g0, g1, g2, g3] [b0, b1, b2, b3]
      (expectedChain4 (loc g0) (loc g1) (loc g2) (loc g3) b0 b1 b2 b3) := by
  refine ⟨rfl, ?_, ?_, ?_, ?_, ?_⟩ <;>
    · intro i hi
      have h4 : i < 4 := hi
      interval_cases i <;> first
        | exact ⟨rfl, rfl⟩
        | rfl
        | (intro h; first | rfl | (simp [expectedChain4] at h))

/-- C3: for every chain of the table, when all its guides are present (the
full guide scene, guide `n` at `loc n`), the generate-rig action creates
exactly N = 4 bones for it, with the heads, tails, parentage and the
head-equals-predecessor-tail invariant of chainSpec; and the generated
armature's bones are exactly these chains' bones in order. -/
theorem generate_rig_all_guides_chain_spec (loc : String → Vec3) (k : Nat)
    (hk : k < autorig_chains.length) :
    chainSpec loc (autorig_chains.getD k ([], [])).1
      (autorig_chains.getD k ([], [])).2
      ((generate_rig_chain_bones (fullGuideScene loc)).getD k []) ∧
    (generate_rig_execute (fullGuideScene loc)).armature.edit_bones =
      (generate_rig_chain_bones (fullGuideScene loc)).flatten := by
  refine ⟨?_, generate_rig_chain_bones_flatten _⟩
  have h5 : k < 5 := hk
  rw [generate_rig_chain_bones_full]
  interval_cases k <;> exact chainSpec_expected4 loc _ _ _ _ _ _ _ _

/-- Witness for C3 at chain 0 (the spine) and all guides at the origin. -/
theorem generate_rig_all_guides_chain_spec_witness :
    chainSpec (fun _ => ⟨0, 0, 0⟩) (autorig_chains.getD 0 ([], [])).1
      (autorig_chains.getD 0 ([], [])).2
      ((generate_rig_chain_bones (fullGuideScene fun _ => ⟨0, 0, 0⟩)).getD 0 []) ∧
    (generate_rig_execute (fullGuideScene fun _ => ⟨0, 0, 0⟩)).armature.edit_bones =
      (generate_rig_chain_bones (fullGuideScene fun _ => ⟨0, 0, 0⟩)).flatten :=
  generate_rig_all_guides_chain_spec (fun _ => ⟨0, 0, 0⟩) 0 (by decide)

/-! ## C1 amended, general form: any chain, any missing middle guide -/

/-- Looking up a name absent from a scene of guide objects finds nothing. -/
theorem find_guide_map_none (loc : String → Vec3) :
    ∀ (names : List String) (m : String), m ∉ names →
      get_guide_by_name (names.map fun n => guideObjAt n (loc n)) m = none := by
  intro names
  induction names with
  | nil => intro m _; rfl
  | cons n rest ih =>
    intro m h
    have hne : n ≠ m := fun he => h (he ▸ List.mem_cons_self n rest)
    simp only [List.map_cons, get_guide_by_name, List.find?_cons]
    rw [show decide ((guideObjAt n (loc n)).name = m) = false from by
      simp [guideObjAt, hne]]
    exact ih m (fun hm => h (List.mem_cons_of_mem n hm))

/-- Guide lookup in the scene missing exactly `m`: `m` (and any name outside
the table) is not found, every other guide of the table is found at its
location. -/
theorem get_guide_sceneWithout (loc : String → Vec3) (m n : String) :
    get_guide_by_name (sceneWithout loc m) n =
      if n = m ∨ n ∉ allGuideNames then none
      else some (guideObjAt n (loc n)) := by
  by_cases hnm : n = m
  · subst hnm
    rw [if_pos (Or.inl rfl)]
    exact find_guide_map_none loc _ n (by simp [List.mem_filter])
  · by_cases hmem : n ∈ allGuideNames
    · rw [if_neg (by simp [hnm, hmem])]
      exact find_guide_map loc _ n (List.mem_filter.mpr ⟨hmem, by simp [hnm]⟩)
    · rw [if_pos (Or.inr hmem)]
      exact find_guide_map_none loc _ n
        (fun hf => hmem (List.mem_filter.mp hf).1)

/-- Evaluation of the chain loop when the chain's second guide (index 1) is
missing and the rest resolve. -/
theorem create_bone_chain4_gap1_eval (s : List SceneObj) (arm : List EditBone)
    (g0 g1 g2 g3 b0 b1 b2 b3 : String) (l0 l2 l3 : Vec3)
    (h0 : get_guide_by_name s g0 = some (guideObjAt g0 l0))
    (h1 : get_guide_by_name s g1 = none)
    (h2 : get_guide_by_name s g2 = some (guideObjAt g2 l2))
    (h3 : get_guide_by_name s g3 = some (guideObjAt g3 l3)) :
    create_bone_chain s [g0, g1, g2, g3] [b0, b1, b2, b3] arm =
      (arm ++ gapChain1 l0 l2 l3 b0 b2 b3, gapChain1 l0 l2 l3 b0 b2 b3) := by
  simp [create_bone_chain, create_bone_chain_go, h0, h1, h2, h3,
    AutoRiggerTool.create_bone, guideObjAt, gapChain1, List.getLast?_concat]

/-- Evaluation of the chain loop when the chain's third guide (index 2) is
missing and the rest resolve. -/
theorem create_bone_chain4_gap2_eval (s : List SceneObj) (arm : List EditBone)
    (g0 g1 g2 g3 b0 b1 b2 b3 : String) (l0 l1 l3 : Vec3)
    (h0 : get_guide_by_name s g0 = some (guideObjAt g0 l0))
    (h1 : get_guide_by_name s g1 = some (guideObjAt g1 l1))
    (h2 : get_guide_by_name s g2 = none)
    (h3 : get_guide_by_name s g3 = some (guideObjAt g3 l3)) :
    create_bone_chain s [g0, g1, g2, g3] [b0, b1, b2, b3] arm =
      (arm ++ gapChain2 l0 l1 l3 b0 b1 b3, gapChain2 l0 l1 l3 b0 b1 b3) := by
  simp [create_bone_chain, create_bone_chain_go, h0, h1, h2, h3,
    AutoRiggerTool.create_bone, guideObjAt, gapChain2, List.getLast?_concat]

/-- One generate-rig fold step on a chain whose second guide is missing. -/
theorem rig_step_gap1 (s : List SceneObj) (arm : List EditBone)
    (acc : List (List EditBone))
    (g0 g1 g2 g3 b0 b1 b2 b3 : String) (l0 l2 l3 : Vec3)
    (h0 : get_guide_by_name s g0 = some (guideObjAt g0 l0))
    (h1 : get_guide_by_name s g1 = none)
    (h2 : get_guide_by_name s g2 = some (guideObjAt g2 l2))
    (h3 : get_guide_by_name s g3 = some (guideObjAt g3 l3)) :
    rigFoldStep s (arm, acc) ([g0, g1, g2, g3], [b0, b1, b2, b3]) =
      (arm ++ gapChain1 l0 l2 l3 b0 b2 b3, acc ++ [gapChain1 l0 l2 l3 b0 b2 b3]) :=
  rigFoldStep_eq s arm acc _ _
    (create_bone_chain4_gap1_eval s arm g0 g1 g2 g3 b0 b1 b2 b3 l0 l2 l3 h0 h1 h2 h3)

/-- One generate-rig fold step on a chain whose third guide is missing. -/
theorem rig_step_gap2 (s : List SceneObj) (arm : List EditBone)
    (acc : List (List EditBone))
    (g0 g1 g2 g3 b0 b1 b2 b3 : String) (l0 l1 l3 : Vec3)
    (h0 : get_guide_by_name s g0 = some (guideObjAt g0 l0))
    (h1 : get_guide_by_name s g1 = some (guideObjAt g1 l1))
    (h2 : get_guide_by_name s g2 = none)
    (h3 : get_guide_by_name s g3 = some (guideObjAt g3 l3)) :
    rigFoldStep s (arm, acc) ([g0, g1, g2, g3], [b0, b1, b2, b3]) =
      (arm ++ gapChain2 l0 l1 l3 b0 b1 b3, acc ++ [gapChain2 l0 l1 l3 b0 b1 b3]) :=
  rigFoldStep_eq s arm acc _ _
    (create_bone_chain4_gap2_eval s arm g0 g1 g2 g3 b0 b1 b2 b3 l0 l1 l3 h0 h1 h2 h3)

/-- C1 amended: for EVERY chain of the table (index k) and EITHER middle
guide (index j = 1 or 2), on the scene holding all guides except that one,
the generate-rig action silently skips the missing guide — it finishes with
no report, the chain gets one bone fewer and no bone for the missing guide —
and the bone built from the guide after the gap is parented to the last bone
created before the gap; the gap appears in geometry instead: the bone before
it ends at its head plus the fixed default offset.  As in C3, the armature's
bones are the recorded chains' bones flattened. -/
theorem generate_rig_missing_middle_guide (loc : String → Vec3) (k j : Nat)
    (hk : k < autorig_chains.length) (hj : j = 1 ∨ j = 2) :
    gapChainSpec loc (autorig_chains.getD k ([], [])).1
      (autorig_chains.getD k ([], [])).2 j
      ((generate_rig_chain_bones
        (sceneWithout loc ((autorig_chains.getD k ([], [])).1.getD j ""))).getD k []) ∧
    (generate_rig_execute
      (sceneWithout loc ((autorig_chains.getD k ([], [])).1.getD j ""))).status =
        OpStatus.FINISHED ∧
    (generate_rig_execute
      (sceneWithout loc ((autorig_chains.getD k ([], [])).1.getD j ""))).reports = [] ∧
    (generate_rig_execute
      (sceneWithout loc ((autorig_chains.getD k ([], [])).1.getD j ""))).armature.edit_bones =
      (generate_rig_chain_bones
        (sceneWithout loc ((autorig_chains.getD k ([], [])).1.getD j ""))).flatten := by
  refine ⟨?_, rfl, rfl, generate_rig_chain_bones_flatten _⟩
  have h5 : k < 5 := hk
  rcases hj with rfl | rfl <;> interval_cases k <;>
    simp [generate_rig_chain_bones, autorig_chains,
      AutoRiggerTool.create_armature, rigFoldStep, create_bone_chain,
      create_bone_chain_go, AutoRiggerTool.create_bone, get_guide_sceneWithout,
      allGuideNames, guideObjAt, List.getLast?_concat, gapChainSpec]

/-- Witness for the amended C1 at the spine chain (k = 0) with its second
guide (j = 1, C_Spine_01_Guide) missing and all other guides at the origin. -/
theorem generate_rig_missing_middle_guide_witness :
    gapChainSpec (fun _ => ⟨0, 0, 0⟩) (autorig_chains.getD 0 ([], [])).1
      (autorig_chains.getD 0 ([], [])).2 1
      ((generate_rig_chain_bones
        (sceneWithout (fun _ => ⟨0, 0, 0⟩)
          ((autorig_chains.getD 0 ([], [])).1.getD 1 ""))).getD 0 []) ∧
    (generate_rig_execute
      (sceneWithout (fun _ => ⟨0, 0, 0⟩)
        ((autorig_chains.getD 0 ([], [])).1.getD 1 ""))).status =
        OpStatus.FINISHED ∧
    (generate_rig_execute
      (sceneWithout (fun _ => ⟨0, 0, 0⟩)
        ((autorig_chains.getD 0 ([], [])).1.getD 1 ""))).reports = [] ∧
    (generate_rig_execute
      (sceneWithout (fun _ => ⟨0, 0, 0⟩)
        ((autorig_chains.getD 0 ([], [])).1.getD 1 ""))).armature.edit_bones =
      (generate_rig_chain_bones
        (sceneWithout (fun _ => ⟨0, 0, 0⟩)
          ((autorig_chains.getD 0 ([], [])).1.getD 1 ""))).flatten :=
  generate_rig_missing_middle_guide (fun _ => ⟨0, 0, 0⟩) 0 1 (by decide)
    (Or.inl rfl)

/-! ## C4: guide size -/

/-- C4, as stated, is false at a concrete input: with the property group's
guide_size set to 0.5 and a mesh selected, every guide the action creates has
size 0.1, not 0.5 — the property does not determine the created size. -/
theorem create_guides_size_counterexample :
    ((create_guides_execute
        ⟨0.5, 0, true, NamingConvention.DOTS, true, true, true, false, false⟩
        (some mesh3x2)).created.map GuideObj.size) = List.replicate 20 0.1 ∧
    (0.5 : ℚ) ≠ 0.1 := ⟨rfl, by norm_num⟩

/-- C4 amended: the create-guides action ignores the property group entirely
(its result is the same for any property values), and every guide it creates
has the fixed size 0.1 — the Python default of create_guide, which execute
never overrides with props.guide_size. -/
theorem create_guides_size_fixed (props props' : AutoRiggerProps)
    (active : Option SceneObj) :
    create_guides_execute props active = create_guides_execute props' active ∧
    (create_guides_execute props active).created.map GuideObj.size =
      List.replicate (create_guides_execute props active).created.length 0.1 := by
  refine ⟨rfl, ?_⟩
  cases active with
  | none => rfl
  | some obj =>
    by_cases h : obj.type = ObjType.MESH
    · simp [create_guides_execute, h, guides_data, AutoRiggerTool.create_guide]
    · simp [create_guides_execute, h]

/-! ## C5: the concrete placement scenario -/

/-- C5: for a mesh with bounding-box height 3, width 2 and center (0,0,0),
the created guide at index 1 — the second guide of the spine chain, which the
spec calls "spine guide 2" and places at (0,0,0.6): C_Spine_01_Guide — is at
(0, 0, 0.6), and the left shoulder guide (index 4) is at (0.4, 0, 2.4). -/
theorem create_guides_concrete_scenario :
    ((create_guides_execute defaultProps (some mesh3x2)).created.getD 1
        default).name = "C_Spine_01_Guide" ∧
    ((create_guides_execute defaultProps (some mesh3x2)).created.getD 1
        default).location = ⟨0, 0, 0.6⟩ ∧
    ((create_guides_execute defaultProps (some mesh3x2)).created.getD 4
        default).name = "L_Shoulder_Guide" ∧
    ((create_guides_execute defaultProps (some mesh3x2)).created.getD 4
        default).location = ⟨0.4, 0, 2.4⟩ := by
  refine ⟨rfl, ?_, rfl, ?_⟩ <;>
  · norm_num [create_guides_execute, mesh3x2, bboxHeight, bboxWidth,
      listMax, listMin, guides_data, AutoRiggerTool.create_guide,
      Vec3.add_def, Vec3.mk.injEq, max_def, min_def]

/-! ## C6: create-human-rig deletes all armatures, and only armatures -/

/-- C6: the create-human-rig operator deletes exactly the armature-type
objects of the scene (any existing "AutoRig" armature included) and appends
the new "Human_Rig" armature: every non-armature object survives, and every
object of the resulting scene is either the new rig or a surviving
non-armature object of the old scene. -/
theorem create_human_rig_scene_effect (scene : List SceneObj) :
    (create_human_rig_execute scene).status = OpStatus.FINISHED ∧
    humanRigObj ∈ (create_human_rig_execute scene).scene ∧
    (∀ o ∈ scene, o.type ≠ ObjType.ARMATURE →
      o ∈ (create_human_rig_execute scene).scene) ∧
    (∀ o ∈ (create_human_rig_execute scene).scene,
      o = humanRigObj ∨ (o ∈ scene ∧ o.type ≠ ObjType.ARMATURE)) := by
  refine ⟨rfl, ?_, ?_, ?_⟩
  · simp [create_human_rig_execute]
  · intro o ho hne
    simp [create_human_rig_execute, List.mem_append, List.mem_filter, ho, hne]
  · intro o ho
    rcases List.mem_append.mp ho with hf | hr
    · have hm := List.mem_filter.mp hf
      exact Or.inr ⟨hm.1, by simpa using hm.2⟩
    · exact Or.inl (by simpa using hr)

/-! ## C2: the armature is created, not looked up -/

/-- C2, as stated, is false: on the empty scene, which holds no armature at
all (in particular none named "AutoRig"), generate-rig still finishes and
yields an armature named "AutoRig" — the one it itself created via
AutoRiggerTool.create_armature — so it does not take an existing armature as
input. -/
theorem generate_rig_no_lookup_counterexample :
    generate_rig_execute [] = ⟨⟨"AutoRig", []⟩, OpStatus.FINISHED, []⟩ := rfl

/-- C2 amended: the generate-rig action itself creates the armature named
"AutoRig" (auto_rigger.py line 183); it performs no lookup of an existing
armature and succeeds on any scene, whether or not an "AutoRig" armature
already exists. -/
theorem generate_rig_creates_autorig (scene : List SceneObj) :
    (generate_rig_execute scene).armature.name = "AutoRig" ∧
    (generate_rig_execute scene).status = OpStatus.FINISHED := ⟨rfl, rfl⟩

/-! ## C7: linear scaling and left/right mirroring of the offsets -/

/-- C7, as stated, is false at a concrete input: scaling the bounding box by
2 (height and width from 1 to 2) does not scale the L_Foot_Guide offset by 2:
its y component is the constant 0.1, not 0.2. -/
theorem guide_offsets_not_linear_counterexample :
    ((guide_offsets 2 2).getD 15 ("", default)).1 = "L_Foot_Guide" ∧
    ((guide_offsets 1 1).getD 15 ("", default)).1 = "L_Foot_Guide" ∧
    ((guide_offsets 2 2).getD 15 ("", default)).2 = ⟨0.3, 0.1, 0⟩ ∧
    Vec3.smul 2 ((guide_offsets 1 1).getD 15 ("", default)).2 = ⟨0.3, 0.2, 0⟩ ∧
    (Vec3.mk 0.3 0.1 0 : Vec3) ≠ ⟨0.3, 0.2, 0⟩ := by
  refine ⟨rfl, rfl, ?_, ?_, ?_⟩ <;>
    norm_num [guide_offsets, Vec3.smul, Vec3.mk.injEq]

/-- C7 amended: the offsets of all guides except the two foot guides are
linear in (height, width) — scaling both by any factor s scales those offsets
by s — while the foot-guide offsets keep the constant y component 0.1; and
each right-chain guide's offset is the left guide's offset mirrored across
the YZ plane (x negated, y and z unchanged). -/
theorem guide_offsets_scaling_mirror (s h w : ℚ) :
    nonFootOffsets (s * h) (s * w) =
      (nonFootOffsets h w).map (fun p => (p.1, Vec3.smul s p.2)) ∧
    ((guide_offsets h w).getD 15 ("", default)) =
      ("L_Foot_Guide", ⟨w * 0.15, 0.1, 0⟩) ∧
    ((guide_offsets h w).getD 19 ("", default)) =
      ("R_Foot_Guide", ⟨-w * 0.15, 0.1, 0⟩) ∧
    (∀ p ∈ lrPairs, (guide_offsets h w).lookup p.2 =
      ((guide_offsets h w).lookup p.1).map mirrorX) := by
  refine ⟨?_, rfl, rfl, ?_⟩
  · simp [nonFootOffsets, guide_offsets, Vec3.smul, Vec3.mk.injEq,
      mul_assoc, neg_mul, mul_neg]
  · intro p hp
    fin_cases hp <;>
      simp [guide_offsets, List.lookup, mirrorX, Vec3.mk.injEq]

/-! ## C8: degenerate meshes -/

/-- C8, as stated, is false at a concrete input: on a zero-volume mesh at the
origin the action does finish without error, but the L_Foot_Guide is created
at (0, 0.1, 0), not at the mesh center (0, 0, 0). -/
theorem degenerate_mesh_counterexample :
    (create_guides_execute defaultProps (some degenerateMesh)).status =
      OpStatus.FINISHED ∧
    ((create_guides_execute defaultProps (some degenerateMesh)).created.getD 15
        default).name = "L_Foot_Guide" ∧
    ((create_guides_execute defaultProps (some degenerateMesh)).created.getD 15
        default).location = ⟨0, 0.1, 0⟩ ∧
    degenerateMesh.location = ⟨0, 0, 0⟩ ∧
    (Vec3.mk 0 0.1 0 : Vec3) ≠ ⟨0, 0, 0⟩ := by
  refine ⟨rfl, rfl, ?_, rfl, ?_⟩ <;>
    norm_num [create_guides_execute, degenerateMesh, bboxHeight, bboxWidth,
      listMax, listMin, guides_data, AutoRiggerTool.create_guide,
      Vec3.add_def, Vec3.mk.injEq, max_def, min_def]

/-- C8 amended: for any degenerate mesh (bounding-box height and width both
0), create-guides reports no error and finishes, and every guide except the
two foot guides is placed at the mesh center; the foot guides are placed at
center + (0, 0.1, 0). -/
theorem degenerate_mesh_guides_at_center (props : AutoRiggerProps)
    (mesh : SceneObj) (hm : mesh.type = ObjType.MESH)
    (hh : bboxHeight mesh.bound_box = 0) (hw : bboxWidth mesh.bound_box = 0) :
    (create_guides_execute props (some mesh)).status = OpStatus.FINISHED ∧
    (create_guides_execute props (some mesh)).reports = [] ∧
    ∀ g ∈ (create_guides_execute props (some mesh)).created,
      g.location = if g.name = "L_Foot_Guide" ∨ g.name = "R_Foot_Guide"
        then Vec3.mk 0 0.1 0 + mesh.location else mesh.location := by
  have hexec : create_guides_execute props (some mesh) =
      ⟨OpStatus.FINISHED, [],
        (guides_data 0 0 mesh.location).map fun p =>
          { AutoRiggerTool.create_guide p.1 p.2 0.1 with
              shrinkwrap_target := some mesh.name }⟩ := by
    simp [create_guides_execute, hm, hh, hw]
  rw [hexec]
  refine ⟨rfl, rfl, ?_⟩
  intro g hg
  simp only [guides_data, AutoRiggerTool.create_guide, List.map_cons,
    List.map_nil, List.mem_cons, List.not_mem_nil, or_false] at hg
  rcases hg with rfl | rfl | rfl | rfl | rfl | rfl | rfl | rfl | rfl | rfl |
    rfl | rfl | rfl | rfl | rfl | rfl | rfl | rfl | rfl | rfl <;>
    simp [Vec3.add_def, Vec3.mk.injEq]

/-- Witness for C8 at the concrete degenerate mesh. -/
theorem degenerate_mesh_guides_at_center_witness :
    (create_guides_execute defaultProps (some degenerateMesh)).status =
      OpStatus.FINISHED ∧
    (create_guides_execute defaultProps (some degenerateMesh)).reports = [] ∧
    ∀ g ∈ (create_guides_execute defaultProps (some degenerateMesh)).created,
      g.location = if g.name = "L_Foot_Guide" ∨ g.name = "R_Foot_Guide"
        then Vec3.mk 0 0.1 0 + degenerateMesh.location
        else degenerateMesh.location :=
  degenerate_mesh_guides_at_center defaultProps degenerateMesh rfl
    (by norm_num [bboxHeight, listMax, listMin, degenerateMesh])
    (by norm_num [bboxWidth, listMax, listMin, degenerateMesh])

/-! ## C9: create-guides precondition failures -/

/-- C9: when nothing is selected or the active object is not a mesh,
create-guides reports "Please select a mesh object", returns a cancelled
status, and creates no guide objects. -/
theorem create_guides_precondition_failure (props : AutoRiggerProps)
    (active : Option SceneObj)
    (h : ∀ obj, active = some obj → obj.type ≠ ObjType.MESH) :
    create_guides_execute props active =
      ⟨OpStatus.CANCELLED, ["Please select a mesh object"], []⟩ := by
  cases active with
  | none => rfl
  | some obj =>
    simp [create_guides_execute, h obj rfl]

/-- Witness for C9: an armature-type active object. -/
theorem create_guides_precondition_failure_witness :
    create_guides_execute defaultProps (some humanRigObj) =
      ⟨OpStatus.CANCELLED, ["Please select a mesh object"], []⟩ :=
  create_guides_precondition_failure defaultProps (some humanRigObj)
    (fun obj he => by cases he; decide)

/-! ## C10: clear-binding -/

/-- C10: clearing a binding on a missing or non-mesh active selection reports
an error, returns a cancelled status and leaves the scene (in particular
every parent relationship) untouched; on an active mesh it returns a
finished status and clears exactly that mesh's parent, preserving every
object's world transform and name and every other object's parent. -/
theorem clear_binding_spec (scene : List SceneObj) (active : Option SceneObj) :
    ((∀ obj, active = some obj → obj.type ≠ ObjType.MESH) →
      clear_binding_execute scene active =
        ⟨scene, OpStatus.CANCELLED, ["Please select the mesh object"]⟩) ∧
    (∀ obj, active = some obj → obj.type = ObjType.MESH →
      (clear_binding_execute scene active).status = OpStatus.FINISHED ∧
      (clear_binding_execute scene active).reports = [] ∧
      (clear_binding_execute scene active).scene.length = scene.length ∧
      ∀ i, i < scene.length →
        ((clear_binding_execute scene active).scene.getD i default).name =
          (scene.getD i default).name ∧
        ((clear_binding_execute scene active).scene.getD i default).matrix_world =
          (scene.getD i default).matrix_world ∧
        ((scene.getD i default).name = obj.name →
          ((clear_binding_execute scene active).scene.getD i default).parent =
            none) ∧
        ((scene.getD i default).name ≠ obj.name →
          ((clear_binding_execute scene active).scene.getD i default).parent =
            (scene.getD i default).parent)) := by
  constructor
  · intro hne
    cases active with
    | none => rfl
    | some obj => simp [clear_binding_execute, hne obj rfl]
  · intro obj heq hm
    subst heq
    have hexec : clear_binding_execute scene (some obj) =
        ⟨scene.map fun x => if x.name = obj.name
            then parent_clear_keep_transform x else x,
         OpStatus.FINISHED, []⟩ := by
      simp [clear_binding_execute, hm]
    rw [hexec]
    refine ⟨rfl, rfl, by simp, ?_⟩
    intro i hi
    have hmap : (scene.map fun x => if x.name = obj.name
        then parent_clear_keep_transform x else x).getD i default =
        if (scene.getD i default).name = obj.name
          then parent_clear_keep_transform (scene.getD i default)
          else scene.getD i default := by
      rw [List.getD_eq_getElem _ _ (by simpa using hi),
        List.getD_eq_getElem _ _ hi, List.getElem_map]
    rw [hmap]
    by_cases hn : (scene.getD i default).name = obj.name
    · rw [if_pos hn]
      exact ⟨rfl, rfl, fun _ => rfl, fun hc => absurd hn hc⟩
    · rw [if_neg hn]
      exact ⟨rfl, rfl, fun hc => absurd hc hn, fun _ => rfl⟩
